import Mathlib

/-!
Verification of `nix-test/src/sizes.c` from the nix repository.

The C source defines a single function

  size_t size_of(const char* type)

that compares its argument, via `strcmp`, against a fixed chain of type
names and returns the platform `sizeof` of the matching native type or
structure, or `0` when no name matches:

  SIZE_OF_T(long);              -- sizeof(long)
  SIZE_OF_S(sockaddr_storage);  -- sizeof(struct sockaddr_storage)
  SIZE_OF_S(iovec);             -- sizeof(struct iovec)
  return 0;

The platform-supplied `sizeof` constants are opaque to the function, so we
embed them as an explicit record of natural numbers and parametrise the
function by it.  C strings without embedded NUL characters are embedded as
Lean strings, and `0 == strcmp(a, b)` as string equality.
-/

/-- The platform data the C compiler supplies to `sizes.c`: the `sizeof`
values of the three native types mentioned in the comparison chain.  The C
standard guarantees each is at least 1 for these complete object types;
theorems that need positivity take it as an explicit hypothesis. -/
structure Platform where
  sizeof_long : Nat
  sizeof_sockaddr_storage : Nat
  sizeof_iovec : Nat
  deriving DecidableEq, Repr

/-- Embedding of `size_of` from `nix-test/src/sizes.c`: the sequential
`SIZE_OF_T` / `SIZE_OF_S` comparison chain with early returns, followed by
the final `return 0`. -/
def size_of (p : Platform) (type : String) : Nat :=
  if type = "long" then p.sizeof_long
  else if type = "sockaddr_storage" then p.sizeof_sockaddr_storage
  else if type = "iovec" then p.sizeof_iovec
  else 0

/-- Modelled from the spec: the second variant of `size_of` that the spec
says exists in the source ("Two variants of this function exist in the
provided source, differing only in the breadth of the recognized set (one
includes the socket address structure, the other omits it)").  The provided
`src/` holds only the variant with socket support, so this narrower variant
is reconstructed from the spec's words: the same chain with the
`sockaddr_storage` entry omitted. -/
def size_of_no_socket (p : Platform) (type : String) : Nat :=
  if type = "long" then p.sizeof_long
  else if type = "iovec" then p.sizeof_iovec
  else 0

/-- A sequential string-comparison chain over a list of (name, size)
entries: the abstract shape of the `SIZE_OF_*` macro chain, returning the
size of the first matching entry and `0` when no entry matches. -/
def chain_lookup : List (String × Nat) → String → Nat
  | [], _ => 0
  | (n, v) :: rest, s => if s = n then v else chain_lookup rest s

/-- The entry list realised by the chain in `size_of`, in source order. -/
def size_entries (p : Platform) : List (String × Nat) :=
  [("long", p.sizeof_long),
   ("sockaddr_storage", p.sizeof_sockaddr_storage),
   ("iovec", p.sizeof_iovec)]

/-- A typical 64-bit platform (x86-64 Linux): `sizeof(long) = 8`,
`sizeof(struct sockaddr_storage) = 128`, `sizeof(struct iovec) = 16`. -/
def linux64 : Platform :=
  { sizeof_long := 8, sizeof_sockaddr_storage := 128, sizeof_iovec := 16 }

/-- A typical 32-bit platform: `sizeof(long) = 4`,
`sizeof(struct sockaddr_storage) = 128`, `sizeof(struct iovec) = 8`. -/
def linux32 : Platform :=
  { sizeof_long := 4, sizeof_sockaddr_storage := 128, sizeof_iovec := 8 }

/-- `size_of` is the chain lookup over its entry list. -/
theorem size_of_eq_chain (p : Platform) (s : String) :
    chain_lookup (size_entries p) s = size_of p s := by
  simp only [size_entries, chain_lookup, size_of]

/-- A comparison chain whose entry names are pairwise distinct computes the
same result on every permutation of its entries. -/
theorem chain_lookup_perm {l₁ l₂ : List (String × Nat)}
    (h : l₁.Perm l₂) (hn : (l₁.map Prod.fst).Nodup) (s : String) :
    chain_lookup l₁ s = chain_lookup l₂ s := by
  induction h with
  | nil => rfl
  | cons x h ih =>
    obtain ⟨n, v⟩ := x
    rw [List.map_cons, List.nodup_cons] at hn
    simp only [chain_lookup]
    by_cases hx : s = n
    · simp [hx]
    · simp [hx, ih hn.2]
  | swap x y l =>
    obtain ⟨nx, vx⟩ := x
    obtain ⟨ny, vy⟩ := y
    rw [List.map_cons, List.map_cons, List.nodup_cons, List.mem_cons] at hn
    have hxy : ny ≠ nx := fun e => hn.1 (Or.inl e)
    simp only [chain_lookup]
    by_cases hy : s = ny
    · by_cases hx : s = nx
      · exact absurd (hy.symm.trans hx) hxy
      · simp [hy, hx, hxy]
    · by_cases hx : s = nx
      · simp [hy, hx, Ne.symm hxy]
      · simp [hy, hx]
  | trans h₁ h₂ ih₁ ih₂ =>
    exact (ih₁ hn).trans (ih₂ ((h₁.map Prod.fst).nodup hn))

/-- Claim C1: every name in the recognized set — exactly the strings
"long", "sockaddr_storage" and "iovec" — is mapped by `size_of` to a value
strictly greater than 0 that equals the platform's actual `sizeof` of the
corresponding native type or structure. -/
theorem size_of_recognized (p : Platform)
    (hl : 0 < p.sizeof_long) (hs : 0 < p.sizeof_sockaddr_storage)
    (hi : 0 < p.sizeof_iovec) :
    (0 < size_of p "long" ∧ size_of p "long" = p.sizeof_long) ∧
    (0 < size_of p "sockaddr_storage" ∧
      size_of p "sockaddr_storage" = p.sizeof_sockaddr_storage) ∧
    (0 < size_of p "iovec" ∧ size_of p "iovec" = p.sizeof_iovec) := by
  refine ⟨⟨?_, ?_⟩, ⟨?_, ?_⟩, ⟨?_, ?_⟩⟩ <;>
    simp [size_of, hl, hs, hi]

/-- Witness for C1 on the 64-bit platform. -/
theorem size_of_recognized_witness :
    (0 < size_of linux64 "long" ∧ size_of linux64 "long" = linux64.sizeof_long) ∧
    (0 < size_of linux64 "sockaddr_storage" ∧
      size_of linux64 "sockaddr_storage" = linux64.sizeof_sockaddr_storage) ∧
    (0 < size_of linux64 "iovec" ∧ size_of linux64 "iovec" = linux64.sizeof_iovec) :=
  size_of_recognized linux64 (by decide) (by decide) (by decide)

/-- Claim C2: on any input outside the recognized set — including the empty
string, case variants and names with trailing whitespace — `size_of`
returns exactly 0: matching is exact string equality, with no partial
matching, case folding or trimming. -/
theorem size_of_unrecognized (p : Platform) (s : String)
    (h1 : s ≠ "long") (h2 : s ≠ "sockaddr_storage") (h3 : s ≠ "iovec") :
    size_of p s = 0 := by
  unfold size_of
  rw [if_neg h1, if_neg h2, if_neg h3]

/-- Witness for C2: the empty string, a case variant of a recognized name,
and a recognized name with trailing whitespace all return 0. -/
theorem size_of_unrecognized_witness :
    size_of linux64 "" = 0 ∧ size_of linux64 "Long" = 0 ∧
      size_of linux64 "long " = 0 :=
  ⟨size_of_unrecognized linux64 "" (by decide) (by decide) (by decide),
   size_of_unrecognized linux64 "Long" (by decide) (by decide) (by decide),
   size_of_unrecognized linux64 "long " (by decide) (by decide) (by decide)⟩

/-- Claim C3: when every platform size is positive (as the C standard
guarantees for these complete types), `size_of` returns 0 exactly on the
inputs outside the recognized set, so 0 unambiguously signals an
unrecognized type name. -/
theorem size_of_eq_zero_iff (p : Platform)
    (hl : 0 < p.sizeof_long) (hs : 0 < p.sizeof_sockaddr_storage)
    (hi : 0 < p.sizeof_iovec) (s : String) :
    size_of p s = 0 ↔
      ¬(s = "long" ∨ s = "sockaddr_storage" ∨ s = "iovec") := by
  unfold size_of
  by_cases h1 : s = "long"
  · simp [h1, hl.ne']
  · by_cases h2 : s = "sockaddr_storage"
    · simp [h1, h2, hs.ne']
    · by_cases h3 : s = "iovec"
      · simp [h1, h2, h3, hi.ne']
      · simp [h1, h2, h3]

/-- Witness for C3 at a concrete unrecognized input. -/
theorem size_of_eq_zero_iff_witness :
    size_of linux64 "misspelled" = 0 ↔
      ¬("misspelled" = "long" ∨ "misspelled" = "sockaddr_storage" ∨
        "misspelled" = "iovec") :=
  size_of_eq_zero_iff linux64 (by decide) (by decide) (by decide) "misspelled"

/-- Claim C4: the two variants of the lookup function — `size_of`, whose
recognized set includes "sockaddr_storage", and `size_of_no_socket`, whose
set omits it — agree on every input other than "sockaddr_storage", and
differ there whenever the structure has a positive size. -/
theorem size_of_variants (p : Platform)
    (hs : 0 < p.sizeof_sockaddr_storage) :
    (∀ s : String, s ≠ "sockaddr_storage" →
        size_of p s = size_of_no_socket p s) ∧
    size_of p "sockaddr_storage" = p.sizeof_sockaddr_storage ∧
    size_of_no_socket p "sockaddr_storage" = 0 ∧
    size_of p "sockaddr_storage" ≠ size_of_no_socket p "sockaddr_storage" := by
  refine ⟨fun s h => ?_, by simp [size_of], by simp [size_of_no_socket],
    by simp [size_of, size_of_no_socket, hs.ne']⟩
  unfold size_of size_of_no_socket
  rw [if_neg h]

/-- Witness for C4 on the 64-bit platform, checked at "iovec" and
"sockaddr_storage". -/
theorem size_of_variants_witness :
    size_of linux64 "iovec" = size_of_no_socket linux64 "iovec" ∧
      size_of linux64 "sockaddr_storage" ≠
        size_of_no_socket linux64 "sockaddr_storage" :=
  ⟨(size_of_variants linux64 (by decide)).1 "iovec" (by decide),
   (size_of_variants linux64 (by decide)).2.2.2⟩

/-- Claim C5: the order of the comparison chain is unobservable — any
permutation of the entry list of `size_of`, evaluated as a sequential
comparison chain, computes the same function as `size_of`, because the
recognized names are pairwise distinct literals. -/
theorem size_of_order_independent (p : Platform) (l : List (String × Nat))
    (h : (size_entries p).Perm l) (s : String) :
    chain_lookup l s = size_of p s := by
  have hn : ((size_entries p).map Prod.fst).Nodup := by
    show (["long", "sockaddr_storage", "iovec"] : List String).Nodup
    decide
  exact (chain_lookup_perm h hn s).symm.trans (size_of_eq_chain p s)

/-- Witness for C5: a concrete reordering of the chain gives the same
answer as the source's order. -/
theorem size_of_order_independent_witness :
    chain_lookup [("iovec", 16), ("long", 8), ("sockaddr_storage", 128)]
        "sockaddr_storage" = size_of linux64 "sockaddr_storage" :=
  size_of_order_independent linux64
    [("iovec", 16), ("long", 8), ("sockaddr_storage", 128)]
    (by decide) "sockaddr_storage"

/-- Claim C6: `size_of` is deterministic — its result is a function of the
platform and the input string alone, so two calls with equal inputs on the
same platform return equal values; in this embedding it is a pure function,
so no call mutates state observable by another. -/
theorem size_of_deterministic (p : Platform) (s₁ s₂ : String)
    (h : s₁ = s₂) : size_of p s₁ = size_of p s₂ := by
  rw [h]

/-- Witness for C6 at a concrete repeated call. -/
theorem size_of_deterministic_witness :
    size_of linux64 "iovec" = size_of linux64 "iovec" :=
  size_of_deterministic linux64 "iovec" "iovec" rfl

/-- Claim C7: the concrete scenarios hold on every platform: "long" maps to
the native size of a long integer (8 on the typical 64-bit platform, 4 on
the 32-bit one), "iovec" and "sockaddr_storage" map to the sizes of their
structures, and "nonexistent_type" maps to 0. -/
theorem size_of_scenarios :
    (∀ p : Platform,
      size_of p "long" = p.sizeof_long ∧
      size_of p "iovec" = p.sizeof_iovec ∧
      size_of p "sockaddr_storage" = p.sizeof_sockaddr_storage ∧
      size_of p "nonexistent_type" = 0) ∧
    size_of linux64 "long" = 8 ∧ size_of linux32 "long" = 4 := by
  refine ⟨fun p => ⟨?_, ?_, ?_, ?_⟩, by decide, by decide⟩ <;> simp [size_of]

/-- Claim C8: `size_of` is total and cannot fail loudly — on every input it
returns a natural number that is either one of the platform sizes in the
chain or the 0 sentinel; no other outcome exists. -/
theorem size_of_total (p : Platform) (s : String) :
    size_of p s = p.sizeof_long ∨
    size_of p s = p.sizeof_sockaddr_storage ∨
    size_of p s = p.sizeof_iovec ∨
    size_of p s = 0 := by
  unfold size_of
  by_cases h1 : s = "long"
  · simp [h1]
  · by_cases h2 : s = "sockaddr_storage"
    · simp [h1, h2]
    · by_cases h3 : s = "iovec"
      · simp [h1, h2, h3]
      · simp [h1, h2, h3]

/-- Claim C9: when the platform sizes are positive, the set of names on
which `size_of` is nonzero is exactly the three-element recognized set, and
in particular the other primitive names "int", "char" and "size_t" all map
to 0 — "long" is the only recognized primitive numeric type. -/
theorem size_of_support (p : Platform)
    (hl : 0 < p.sizeof_long) (hs : 0 < p.sizeof_sockaddr_storage)
    (hi : 0 < p.sizeof_iovec) :
    {s : String | size_of p s ≠ 0}
        = ({"long", "sockaddr_storage", "iovec"} : Set String) ∧
    size_of p "int" = 0 ∧ size_of p "char" = 0 ∧ size_of p "size_t" = 0 := by
  refine ⟨Set.ext fun s => ?_, by simp [size_of], by simp [size_of],
    by simp [size_of]⟩
  simp only [Set.mem_setOf_eq, Set.mem_insert_iff, Set.mem_singleton_iff]
  rw [ne_eq, size_of_eq_zero_iff p hl hs hi s, not_not]

/-- Witness for C9 on the 64-bit platform. -/
theorem size_of_support_witness :
    {s : String | size_of linux64 s ≠ 0}
        = ({"long", "sockaddr_storage", "iovec"} : Set String) ∧
    size_of linux64 "int" = 0 ∧ size_of linux64 "char" = 0 ∧
      size_of linux64 "size_t" = 0 :=
  size_of_support linux64 (by decide) (by decide) (by decide)

/-- Claim C10: structure names match only as bare struct tags: the
C-qualified spellings "struct iovec" and "struct sockaddr_storage" are not
in the recognized set and return the not-found sentinel 0. -/
theorem size_of_struct_qualified (p : Platform) :
    size_of p "struct iovec" = 0 ∧
      size_of p "struct sockaddr_storage" = 0 := by
  constructor <;> simp [size_of]
